import Mathlib

/-!
Shallow embedding of the interior-design visualizer frontend
(`src/components/ThreeDViewer.jsx`, `src/components/RoomQuickEditorNEW.jsx`,
and the unnamed `RoomQuickEditor` mini-game component), together with
theorems settling the specification claims.

JavaScript numbers are modelled as exact rationals (`ℚ`); `Number(v)`
applied to an absent or non-numeric field, which yields `NaN`, is modelled
by the `JSNum.nan` constructor.  `Number(x.toFixed(k))` and `Math.round`
both round half-way cases toward positive infinity, which is Mathlib's
`round`.  `try { … } catch { … }` is modelled by matching on an `Except`
value describing whether the guarded operation threw.
-/

namespace Frontend

/-! ## ThreeDViewer: rooms, sizes, coordinate conversion -/

/-- Result of applying JavaScript `Number(...)` to a field: `nan` for an
absent or non-numeric value, `num q` for a numeric one. -/
inductive JSNum where
  | nan : JSNum
  | num (q : ℚ) : JSNum
deriving DecidableEq

/-- The JavaScript expression `Number(v) || 3`: `NaN` and `0` are falsy, so
they fall through to the default `3`; any other number is kept. -/
def jsNumOr3 : JSNum → ℚ
  | .nan => 3
  | .num q => if q = 0 then 3 else q

/-- A room record from `layout.rooms`.  `size` is the raw `size` field as
seen through `Number(...)` (`nan` when absent or non-numeric); `x` and `y`
are the numeric top-left layout coordinates `Number(r.x)`, `Number(r.y)`. -/
structure Room where
  name : String
  size : JSNum
  x : ℚ
  y : ℚ
deriving DecidableEq

/-- Models `Number(roomDef?.size)`: reading `size` through optional chaining; a
missing room gives `undefined`, hence `NaN`. -/
def optSize : Option Room → JSNum
  | none => .nan
  | some r => r.size

/-- Models `const size = Number(roomDef?.size) || 3` in the `onMouseUp`
transform-end handler (ThreeDViewer.jsx line 466). -/
def onMouseUpSize (roomDef : Option Room) : ℚ := jsNumOr3 (optSize roomDef)

/-- Models `const size = Number(r.size) || 3` in the layout-sync effect
(ThreeDViewer.jsx line 498). -/
def layoutSyncSize (r : Room) : ℚ := jsNumOr3 r.size

/-- Models `const size = Number(room.size) || 3` in the per-room render loop
(ThreeDViewer.jsx line 806). -/
def renderLoopSize (r : Room) : ℚ := jsNumOr3 r.size

/-- The layout-sync effect's
`g.position.set(Number(r.x) + size / 2, 0, Number(r.y) + size / 2)`:
the centered 3D position given to the room's group. -/
def layoutSyncPosition (r : Room) : ℚ × ℚ × ℚ :=
  (r.x + layoutSyncSize r / 2, 0, r.y + layoutSyncSize r / 2)

/-- Models `Number(v.toFixed(3))`: round to 3 decimal places, ties toward `+∞`. -/
def round3 (v : ℚ) : ℚ := ((round (v * 1000) : ℤ) : ℚ) / 1000

/-- Models `Number(v.toFixed(5))`: round to 5 decimal places, ties toward `+∞`. -/
def round5 (v : ℚ) : ℚ := ((round (v * 100000) : ℤ) : ℚ) / 100000

/-- Models `const snapTo = (v) => (snap ? Math.round(v / snap) * snap : v)`:
`snap = 0` is falsy, so no snapping is applied then. -/
def snapTo (snap v : ℚ) : ℚ :=
  if snap = 0 then v else ((round (v / snap) : ℤ) : ℚ) * snap

/-- Models `grp.scale.x || 1`: a zero scale component is falsy and is replaced by
the default `1`. -/
def scaleOr1 (s : ℚ) : ℚ := if s = 0 then 1 else s

/-- The payload `{x, y, rotationY, scale}` passed to `onTransformEnd`. -/
structure TransformResult where
  x : ℚ
  y : ℚ
  rotationY : ℚ
  scale : ℚ
deriving DecidableEq

/-- The `onMouseUp` transform-end handler (ThreeDViewer.jsx lines 462-482):
converts the group's center position `(posx, _, posz)` back to top-left
layout coordinates, rounds to 3 decimals, optionally snaps, and reports
rotation and scale rounded to 5 decimals.  (`grp.rotation.y || 0` is the
identity on every rational, so `roty` enters `round5` directly.) -/
def onMouseUpResult (roomDef : Option Room) (posx posz roty scl snap : ℚ) :
    TransformResult :=
  let size := onMouseUpSize roomDef
  let newX := round3 (posx - size / 2)
  let newY := round3 (posz - size / 2)
  { x := snapTo snap newX
    y := snapTo snap newY
    rotationY := round5 roty
    scale := round5 (scaleOr1 scl) }

/-! ## ThreeDViewer: render-mode switching -/

/-- What is rendered for a single room: the schematic blue box, or the
furnished interior; the furnished interior carries whether the
name-heuristic furniture block is included. -/
inductive RoomRepr where
  | schematicBox : RoomRepr
  | furnished (withFurniture : Bool) : RoomRepr
deriving DecidableEq

/-- Models `renderMode === 'furnished' ? (…furniture…) : null` inside
`RoomInterior` (ThreeDViewer.jsx line 658). -/
def roomInteriorHasFurniture (renderMode : String) : Bool :=
  renderMode = "furnished"

/-- Models `const GroupContents = renderMode === 'schematic' ? SchematicGroup :
FurnishedGroup` (ThreeDViewer.jsx line 862), with the furnished group
containing `RoomInterior`. -/
def groupContents (renderMode : String) : RoomRepr :=
  if renderMode = "schematic" then .schematicBox
  else .furnished (roomInteriorHasFurniture renderMode)

/-- Models `const [renderMode, setRenderMode] = useState('furnished')`
(ThreeDViewer.jsx line 891). -/
def initialRenderMode : String := "furnished"

/-- Values the viewer's `renderMode` state can hold: the initial value, and
the results of the two `setRenderMode` calls wired to the mode buttons
(`setRenderMode('furnished')`, `setRenderMode('schematic')`). -/
inductive RenderModeReachable : String → Prop
  | init : RenderModeReachable initialRenderMode
  | setFurnished {m : String} :
      RenderModeReachable m → RenderModeReachable "furnished"
  | setSchematic {m : String} :
      RenderModeReachable m → RenderModeReachable "schematic"

/-! ## RoomQuickEditorNEW: preview items, cart, localStorage persistence -/

/-- Position of a placed preview item (`pos: { x, y }`, in percent of the
preview area). -/
structure Pos where
  x : ℚ
  y : ℚ
deriving DecidableEq

/-- A placed preview item, as created by `addAllCartToRoom`:
`{ id, label, cat, icon, pos, price }`. -/
structure PreviewItem where
  id : String
  label : String
  cat : String
  icon : String
  pos : Pos
  price : ℚ
deriving DecidableEq

/-- A catalog entry from `CATALOG`: `{ key, label, cat, icon, price }`. -/
structure CatalogItem where
  key : String
  label : String
  cat : String
  icon : String
  price : ℚ
deriving DecidableEq

/-- A cart entry: a catalog entry spread together with a quantity
(`{ ...catalogItem, qty }`). -/
structure CartEntry where
  key : String
  label : String
  cat : String
  icon : String
  price : ℚ
  qty : ℤ
deriving DecidableEq

/-- JSON values, the image of `JSON.stringify`/`JSON.parse` on the plain
data this component persists. -/
inductive Json where
  | jnull : Json
  | jbool (b : Bool) : Json
  | jnum (q : ℚ) : Json
  | jstr (s : String) : Json
  | jarr (items : List Json) : Json
  | jobj (fields : List (String × Json)) : Json

/-- Field lookup in a JSON object. -/
def jlookup (fields : List (String × Json)) (k : String) : Option Json :=
  (fields.find? (fun f => f.1 = k)).map (fun f => f.2)

/-- Serialization `JSON.stringify` of a `pos` record. -/
def encodePos (p : Pos) : Json :=
  .jobj [("x", .jnum p.x), ("y", .jnum p.y)]

/-- Serialization `JSON.stringify` of one preview item, fields in the source's literal
order `{ id, label, cat, icon, pos, price }`. -/
def encodeItem (it : PreviewItem) : Json :=
  .jobj [("id", .jstr it.id), ("label", .jstr it.label),
         ("cat", .jstr it.cat), ("icon", .jstr it.icon),
         ("pos", encodePos it.pos), ("price", .jnum it.price)]

/-- Serialization `JSON.stringify(previewItems)`: the whole array. -/
def encodeItems (l : List PreviewItem) : Json := .jarr (l.map encodeItem)

/-- Reading a parsed `pos` object back as a position record. -/
def decodePos (j : Json) : Option Pos :=
  match j with
  | .jobj fields =>
    match jlookup fields "x", jlookup fields "y" with
    | some (.jnum x), some (.jnum y) => some ⟨x, y⟩
    | _, _ => none
  | _ => none

/-- Reading a parsed item object back as a preview-item record. -/
def decodeItem (j : Json) : Option PreviewItem :=
  match j with
  | .jobj fields =>
    match jlookup fields "id", jlookup fields "label", jlookup fields "cat",
        jlookup fields "icon", jlookup fields "pos",
        jlookup fields "price" with
    | some (.jstr i), some (.jstr l), some (.jstr c), some (.jstr ic),
        some pj, some (.jnum pr) =>
      match decodePos pj with
      | some p => some ⟨i, l, c, ic, p, pr⟩
      | none => none
    | _, _, _, _, _, _ => none
  | _ => none

/-- Reading a parsed array back as a list of preview items. -/
def decodeItems (j : Json) : Option (List PreviewItem) :=
  match j with
  | .jarr xs => xs.mapM decodeItem
  | _ => none

/-- Browser `localStorage`, with values kept in parsed (JSON-tree) form:
storing a value stands for storing its `JSON.stringify` text, and reading
stands for `JSON.parse` of that text. -/
def Store : Type := List (String × Json)

/-- Models `localStorage.getItem(k)` (parsed form; `none` is JavaScript `null`). -/
def getItem (s : Store) (k : String) : Option Json :=
  (List.find? (fun f => f.1 = k) s).map (fun f => f.2)

/-- Models `localStorage.setItem(k, v)`: overwrite the binding for `k`. -/
def setItem (s : Store) (k : String) (v : Json) : Store :=
  (k, v) :: List.filter (fun f => f.1 ≠ k) s

/-- The storage key `` `rdh_quick_${roomType}` ``. -/
def quickKey (roomType : String) : String := "rdh_quick_" ++ roomType

/-- Function `savePreviewToLocal` (RoomQuickEditorNEW.jsx lines 71-79), success
path: `localStorage.setItem(`rdh_quick_${roomType}`,
JSON.stringify(previewItems))`. -/
def savePreviewToLocal (store : Store) (roomType : String)
    (previewItems : List PreviewItem) : Store :=
  setItem store (quickKey roomType) (encodeItems previewItems)

/-- The load effect (RoomQuickEditorNEW.jsx lines 30-37), success path:
`raw = localStorage.getItem(key); if (raw) setPreviewItems(JSON.parse(raw))`.
Returns the new `previewItems`.  A stored value that does not parse back
into a list of item records never arises from `savePreviewToLocal`; the
model keeps the previous state in that case. -/
def loadEffect (store : Store) (roomType : String)
    (prev : List PreviewItem) : List PreviewItem :=
  match getItem store (quickKey roomType) with
  | none => prev
  | some j =>
    match decodeItems j with
    | some l => l
    | none => prev

/-- The component state the error-handling claim talks about. -/
structure QEState where
  previewItems : List PreviewItem
  cart : List CartEntry
  roomType : String
deriving DecidableEq

/-- The load effect's `try { … } catch (e) { /* ignore */ }`: the argument
describes whether `getItem`-plus-`JSON.parse` threw (`.error`), returned
`null` (`.ok none`), or produced a parsed value (`.ok (some j)`). -/
def loadEffectTry (readResult : Except Unit (Option Json))
    (st : QEState) : QEState :=
  match readResult with
  | .error _ => st
  | .ok none => st
  | .ok (some j) =>
    match decodeItems j with
    | some l => { st with previewItems := l }
    | none => st

/-- Function `savePreviewToLocal` with a possibly-throwing `setItem`: on success the
store is updated and the state untouched (only the cosmetic `burst` changes,
not modelled); on failure `console.error('persist failed', e)` runs and
nothing else.  Returns (store, state, console log). -/
def savePreviewToLocalTry (writeThrows : Bool) (store : Store)
    (st : QEState) : Store × QEState × List String :=
  if writeThrows then (store, st, ["persist failed"])
  else (savePreviewToLocal store st.roomType st.previewItems, st, [])

/-! ## ThreeDViewer: glTF loading with procedural fallback -/

/-- A loaded glTF model, identified by its URL. -/
structure GltfModel where
  url : String
deriving DecidableEq

/-- Models the memoized `try { return useLoader(GLTFLoader, url); } catch
{ return null; }` blocks (ThreeDViewer.jsx lines 412-435): a throwing load
yields `null`. -/
def loadGltf (result : Except Unit GltfModel) : Option GltfModel :=
  match result with
  | .ok m => some m
  | .error _ => none

/-- What a furniture slot renders: the loaded glTF primitive, or the
procedural prefab component (such as `<Toilet />` or `<Sofa />`). -/
inductive FurnitureRender where
  | loaded (m : GltfModel) : FurnitureRender
  | procedural : FurnitureRender
deriving DecidableEq

/-- Models the ternaries such as
`toiletGltf ? <primitive object={toiletGltf.scene.clone()} /> : <Toilet />`
(ThreeDViewer.jsx lines 660-662, 706, 777-785): when the glTF is `null`
the procedural furniture is substituted. -/
def furnitureSelect (gltf : Option GltfModel) : FurnitureRender :=
  match gltf with
  | some m => .loaded m
  | none => .procedural

/-- The three geometry kinds held by the module-level `commonGeometries`
record (ThreeDViewer.jsx lines 9-14), commented in the source as
"Cache commonly used geometries". -/
inductive GeometryKind where
  | box : GeometryKind
  | cylinder : GeometryKind
  | plane : GeometryKind
deriving DecidableEq

/-- Models `const commonGeometries = { box: …, cylinder: …, plane: … }`:
a module-level table of reusable geometry objects created once at load. -/
def commonGeometries : List (String × GeometryKind) :=
  [("box", .box), ("cylinder", .cylinder), ("plane", .plane)]

/-! ## RoomQuickEditorNEW: cart operations -/

/-- Spread `{ ...catalogItem, qty: 1 }`. -/
def withQtyOne (item : CatalogItem) : CartEntry :=
  ⟨item.key, item.label, item.cat, item.icon, item.price, 1⟩

/-- Function `addToCart` (RoomQuickEditorNEW.jsx lines 42-52): if an entry
with the item's key exists, increment its quantity; otherwise prepend the
item with quantity 1. -/
def addToCart (item : CatalogItem) (cart : List CartEntry) :
    List CartEntry :=
  if (cart.find? (fun p => p.key = item.key)).isSome then
    cart.map (fun p =>
      if p.key = item.key then { p with qty := p.qty + 1 } else p)
  else withQtyOne item :: cart

/-- Function `removeFromCart` (RoomQuickEditorNEW.jsx line 54):
`prev.filter(i => i.key !== key)`. -/
def removeFromCart (k : String) (cart : List CartEntry) : List CartEntry :=
  cart.filter (fun i => i.key ≠ k)

/-- The cart decrement button (RoomQuickEditorNEW.jsx line 193):
`prev.map(p => p.key === ci.key ? { ...p, qty: Math.max(1, p.qty - 1) } : p)`. -/
def decQtyButton (k : String) (cart : List CartEntry) : List CartEntry :=
  cart.map (fun p =>
    if p.key = k then { p with qty := max 1 (p.qty - 1) } else p)

/-- The cart increment button (RoomQuickEditorNEW.jsx line 194):
`prev.map(p => p.key === ci.key ? { ...p, qty: p.qty + 1 } : p)`. -/
def incQtyButton (k : String) (cart : List CartEntry) : List CartEntry :=
  cart.map (fun p =>
    if p.key = k then { p with qty := p.qty + 1 } else p)

/-- The effect of `addAllCartToRoom` on the cart (RoomQuickEditorNEW.jsx
lines 56-68): an empty cart returns early unchanged, otherwise
`setCart([])`. -/
def addAllCartToRoomCart (cart : List CartEntry) : List CartEntry :=
  if cart.length = 0 then cart else []

/-- Cart well-formedness: every entry has quantity at least 1, and keys are
pairwise distinct (at most one entry per catalog key). -/
def cartWF (c : List CartEntry) : Prop :=
  (∀ e ∈ c, 1 ≤ e.qty) ∧ (c.map (fun e => e.key)).Nodup

instance (c : List CartEntry) : Decidable (cartWF c) := by
  unfold cartWF
  infer_instance

/-! ## RoomQuickEditorNEW: random placement -/

/-- Function `randomPos` (RoomQuickEditorNEW.jsx line 40):
`{ x: Math.floor(Math.random() * 80) + 10, y: Math.floor(Math.random() * 70) + 15 }`,
with the two `Math.random()` draws passed in as `r1`, `r2`. -/
def randomPos (r1 r2 : ℚ) : Pos :=
  ⟨(⌊r1 * 80⌋ : ℤ) + 10, (⌊r2 * 70⌋ : ℤ) + 15⟩

/-- The double loop of `addAllCartToRoom`: each cart entry contributes
`qty` copies. -/
def expandCart (cart : List CartEntry) : List CartEntry :=
  cart.flatMap (fun ci => List.replicate ci.qty.toNat ci)

/-- The `created` list built by `addAllCartToRoom` (RoomQuickEditorNEW.jsx
lines 56-68): one preview item per copy, with the generated id string and
one `randomPos` draw each; `ids n` and `rand n` are the id string and the
pair of `Math.random()` draws used for the `n`-th created item. -/
def addAllCartCreated (ids : ℕ → String) (rand : ℕ → ℚ × ℚ)
    (cart : List CartEntry) : List PreviewItem :=
  (expandCart cart).enum.map (fun ni =>
    { id := ids ni.1, label := ni.2.label, cat := ni.2.cat,
      icon := ni.2.icon, pos := randomPos (rand ni.1).1 (rand ni.1).2,
      price := ni.2.price })

/-! ## RoomQuickEditor mini-game: score -/

/-- Score update in `addRandomItem` (part_000): `setScore(s => s + 10)`. -/
def addRandomItemScore (s : ℤ) : ℤ := s + 10

/-- Score update in `removeItem` (part_000):
`setScore(s => Math.max(0, s - 5))`. -/
def removeItemScore (s : ℤ) : ℤ := max 0 (s - 5)

/-- Score after `resetGame` (part_000): `setScore(0)`. -/
def resetGameScore : ℤ := 0

/-- Scores reachable from the initial `useState(0)` by any sequence of
`addRandomItem`, `removeItem`, `resetGame`. -/
inductive ScoreReachable : ℤ → Prop
  | init : ScoreReachable 0
  | addRandomItem {s : ℤ} :
      ScoreReachable s → ScoreReachable (addRandomItemScore s)
  | removeItem {s : ℤ} :
      ScoreReachable s → ScoreReachable (removeItemScore s)
  | resetGame {s : ℤ} :
      ScoreReachable s → ScoreReachable resetGameScore

/-! ## Rounding helper lemmas -/

/-- Rounding to 3 decimals fixes any rational that already has at most
3 decimal places. -/
lemma round3_eq_self (v : ℚ) (n : ℤ) (hn : v * 1000 = (n : ℚ)) :
    round3 v = v := by
  have hv : v = (n : ℚ) / 1000 := by
    rw [eq_div_iff (by norm_num : (1000 : ℚ) ≠ 0)]
    exact hn
  rw [round3, hn, round_intCast, hv]

/-! ## Persistence helper lemmas -/

/-- Decoding inverts encoding on a single preview item. -/
lemma decodeItem_encodeItem (it : PreviewItem) :
    decodeItem (encodeItem it) = some it := rfl

/-- Decoding inverts encoding on a list of preview items. -/
lemma decodeItems_encodeItems (l : List PreviewItem) :
    decodeItems (encodeItems l) = some l := by
  induction l with
  | nil => rfl
  | cons it rest ih =>
    show List.mapM decodeItem (encodeItem it :: rest.map encodeItem)
        = some (it :: rest)
    rw [List.mapM_cons, decodeItem_encodeItem]
    have ih2 : List.mapM decodeItem (rest.map encodeItem) = some rest := ih
    rw [ih2]
    rfl

/-- Reading a key back right after writing it returns the written value. -/
lemma getItem_setItem (s : Store) (k : String) (v : Json) :
    getItem (setItem s k v) k = some v := by
  show (List.find? (fun f => f.1 = k) ((k, v) :: _)).map _ = some v
  rw [List.find?_cons_of_pos _ (by simp)]
  rfl

/-! ## Cart helper lemmas -/

/-- The empty cart is well-formed. -/
lemma cartWF_nil : cartWF [] := by
  refine ⟨fun e he => absurd he (List.not_mem_nil e), List.nodup_nil⟩

/-- A per-key quantity update that keeps quantities at least 1 preserves
cart well-formedness. -/
lemma cartWF_map_update (c : List CartEntry) (k : String) (g : ℤ → ℤ)
    (hg : ∀ q : ℤ, 1 ≤ q → 1 ≤ g q) (h : cartWF c) :
    cartWF (c.map (fun p =>
      if p.key = k then { p with qty := g p.qty } else p)) := by
  obtain ⟨hq, hk⟩ := h
  refine ⟨?_, ?_⟩
  · intro e he
    rw [List.mem_map] at he
    obtain ⟨p, hp, rfl⟩ := he
    by_cases hpk : p.key = k
    · rw [if_pos hpk]
      exact hg p.qty (hq p hp)
    · rw [if_neg hpk]
      exact hq p hp
  · have hkeys : (c.map (fun p =>
        if p.key = k then { p with qty := g p.qty } else p)).map
          (fun e => e.key) = c.map (fun e => e.key) := by
      rw [List.map_map]
      apply List.map_congr_left
      intro a _
      by_cases hpk : a.key = k
      · rw [Function.comp_apply, if_pos hpk]
      · rw [Function.comp_apply, if_neg hpk]
    rw [hkeys]
    exact hk

/-- `addToCart` preserves cart well-formedness. -/
lemma cartWF_addToCart (item : CatalogItem) (c : List CartEntry)
    (h : cartWF c) : cartWF (addToCart item c) := by
  rw [addToCart]
  split
  · exact cartWF_map_update c item.key (fun q => q + 1)
      (fun q hq => by show (1 : ℤ) ≤ q + 1; linarith) h
  · next hfind =>
    have hnone : c.find? (fun p => p.key = item.key) = none := by
      cases hfc : c.find? (fun p => p.key = item.key) with
      | none => rfl
      | some v => rw [hfc] at hfind; exact absurd rfl hfind
    obtain ⟨hq, hk⟩ := h
    refine ⟨?_, ?_⟩
    · intro e he
      rcases List.mem_cons.mp he with rfl | hmem
      · exact le_refl 1
      · exact hq e hmem
    · rw [List.map_cons, List.nodup_cons]
      refine ⟨?_, hk⟩
      intro hmemk
      rw [List.mem_map] at hmemk
      obtain ⟨p, hp, hpk⟩ := hmemk
      have hfalse := List.find?_eq_none.mp hnone p hp
      exact hfalse (decide_eq_true hpk)

/-- `removeFromCart` preserves cart well-formedness. -/
lemma cartWF_removeFromCart (k : String) (c : List CartEntry)
    (h : cartWF c) : cartWF (removeFromCart k c) := by
  obtain ⟨hq, hk⟩ := h
  refine ⟨fun e he => hq e (List.mem_of_mem_filter he), ?_⟩
  exact List.Nodup.sublist
    (List.Sublist.map (fun e => e.key) (List.filter_sublist c)) hk

/-- C1: the round-trip through the centered 3D representation is the
identity on 3-decimal top-left coordinates, for any room (numeric size or
not: both directions use the same `Number(…) || 3` size). -/
theorem layoutSync_onMouseUp_roundTrip (r : Room) (roty scl : ℚ)
    (hx : ∃ n : ℤ, r.x * 1000 = (n : ℚ))
    (hy : ∃ n : ℤ, r.y * 1000 = (n : ℚ)) :
    (onMouseUpResult (some r) (layoutSyncPosition r).1
        (layoutSyncPosition r).2.2 roty scl 0).x = r.x ∧
    (onMouseUpResult (some r) (layoutSyncPosition r).1
        (layoutSyncPosition r).2.2 roty scl 0).y = r.y := by
  obtain ⟨nx, hnx⟩ := hx
  obtain ⟨ny, hny⟩ := hy
  have hsize : onMouseUpSize (some r) = layoutSyncSize r := rfl
  constructor
  · show snapTo 0 (round3 ((r.x + layoutSyncSize r / 2) -
      onMouseUpSize (some r) / 2)) = r.x
    rw [hsize, snapTo, if_pos rfl]
    have : r.x + layoutSyncSize r / 2 - layoutSyncSize r / 2 = r.x := by ring
    rw [this, round3_eq_self r.x nx hnx]
  · show snapTo 0 (round3 ((r.y + layoutSyncSize r / 2) -
      onMouseUpSize (some r) / 2)) = r.y
    rw [hsize, snapTo, if_pos rfl]
    have : r.y + layoutSyncSize r / 2 - layoutSyncSize r / 2 = r.y := by ring
    rw [this, round3_eq_self r.y ny hny]

/-- C1 witness: the round-trip at the concrete room
`{ name := "Living Room", size := 4, x := 1.25, y := -2.5 }`. -/
theorem layoutSync_onMouseUp_roundTrip_witness :
    (onMouseUpResult (some ⟨"Living Room", .num 4, 5/4, -5/2⟩)
        (layoutSyncPosition ⟨"Living Room", .num 4, 5/4, -5/2⟩).1
        (layoutSyncPosition ⟨"Living Room", .num 4, 5/4, -5/2⟩).2.2 0 1 0).x
      = 5/4 ∧
    (onMouseUpResult (some ⟨"Living Room", .num 4, 5/4, -5/2⟩)
        (layoutSyncPosition ⟨"Living Room", .num 4, 5/4, -5/2⟩).1
        (layoutSyncPosition ⟨"Living Room", .num 4, 5/4, -5/2⟩).2.2 0 1 0).y
      = -5/2 :=
  layoutSync_onMouseUp_roundTrip ⟨"Living Room", .num 4, 5/4, -5/2⟩ 0 1
    ⟨1250, by norm_num⟩ ⟨-2500, by norm_num⟩

/-- C2: with positive snap, the reported `x` and `y` are integer multiples
of the snap value; `rotationY` and `scale` are never snapped, only rounded
to 5 decimals; with snap `0` the reported `x` and `y` are the unsnapped
3-decimal roundings. -/
theorem onMouseUp_snap_spec (roomDef : Option Room)
    (posx posz roty scl snap : ℚ) :
    (0 < snap →
      (∃ k : ℤ, (onMouseUpResult roomDef posx posz roty scl snap).x
          = (k : ℚ) * snap) ∧
      (∃ k : ℤ, (onMouseUpResult roomDef posx posz roty scl snap).y
          = (k : ℚ) * snap)) ∧
    (onMouseUpResult roomDef posx posz roty scl snap).rotationY
      = round5 roty ∧
    (onMouseUpResult roomDef posx posz roty scl snap).scale
      = round5 (scaleOr1 scl) ∧
    (snap = 0 →
      (onMouseUpResult roomDef posx posz roty scl snap).x
        = round3 (posx - onMouseUpSize roomDef / 2) ∧
      (onMouseUpResult roomDef posx posz roty scl snap).y
        = round3 (posz - onMouseUpSize roomDef / 2)) := by
  refine ⟨fun hpos => ?_, rfl, rfl, fun h0 => ?_⟩
  · have hne : snap ≠ 0 := ne_of_gt hpos
    constructor
    · exact ⟨round (round3 (posx - onMouseUpSize roomDef / 2) / snap), by
        show snapTo snap _ = _
        rw [snapTo, if_neg hne]⟩
    · exact ⟨round (round3 (posz - onMouseUpSize roomDef / 2) / snap), by
        show snapTo snap _ = _
        rw [snapTo, if_neg hne]⟩
  · constructor
    · show snapTo snap _ = _
      rw [h0, snapTo, if_pos rfl]
    · show snapTo snap _ = _
      rw [h0, snapTo, if_pos rfl]

/-- C2 witness: the snap specification instantiated at snap `2` with both
hypotheses discharged. -/
theorem onMouseUp_snap_spec_witness :
    (∃ k : ℤ, (onMouseUpResult none 5 7 0 1 2).x = (k : ℚ) * 2) ∧
    (∃ k : ℤ, (onMouseUpResult none 5 7 0 1 2).y = (k : ℚ) * 2) ∧
    (onMouseUpResult none 5 7 0 1 0).x = round3 (5 - onMouseUpSize none / 2) :=
  ⟨((onMouseUp_snap_spec none 5 7 0 1 2).1 (by norm_num)).1,
   ((onMouseUp_snap_spec none 5 7 0 1 2).1 (by norm_num)).2,
   ((onMouseUp_snap_spec none 5 7 0 1 0).2.2.2 rfl).1⟩

/-- C3: a room whose `size` field is absent/non-numeric (`NaN` after
`Number(...)`) or `0` yields the default size `3` in all three consumers:
the transform-end handler, the layout-sync effect, and the render loop. -/
theorem size_default_three (r : Room)
    (h : r.size = JSNum.nan ∨ r.size = JSNum.num 0) :
    onMouseUpSize (some r) = 3 ∧ layoutSyncSize r = 3 ∧
      renderLoopSize r = 3 := by
  have hs : jsNumOr3 r.size = 3 := by
    rcases h with h | h <;> rw [h] <;> simp [jsNumOr3]
  exact ⟨hs, hs, hs⟩

/-- C3 witness: the default at a concrete room with absent size. -/
theorem size_default_three_witness :
    onMouseUpSize (some ⟨"Kitchen", .nan, 0, 0⟩) = 3 ∧
    layoutSyncSize ⟨"Kitchen", .nan, 0, 0⟩ = 3 ∧
    renderLoopSize ⟨"Kitchen", .nan, 0, 0⟩ = 3 :=
  size_default_three ⟨"Kitchen", .nan, 0, 0⟩ (Or.inl rfl)

/-- C4: the render mode starts as `'furnished'`; for every value the
viewer's render-mode state can reach, the schematic blue box is produced
exactly when the mode is `'schematic'`, and otherwise the furnished
interior including the name-heuristic furniture is produced. -/
theorem renderMode_switching :
    initialRenderMode = "furnished" ∧
    ∀ m : String, RenderModeReachable m →
      ((groupContents m = RoomRepr.schematicBox ↔ m = "schematic") ∧
       (m ≠ "schematic" → groupContents m = RoomRepr.furnished true)) := by
  refine ⟨rfl, fun m hm => ?_⟩
  have hcases : m = "furnished" ∨ m = "schematic" := by
    induction hm with
    | init => exact Or.inl rfl
    | setFurnished _ _ => exact Or.inl rfl
    | setSchematic _ _ => exact Or.inr rfl
  rcases hcases with h | h <;> subst h
  · exact ⟨by decide, fun _ => by decide⟩
  · exact ⟨by decide, fun hne => absurd rfl hne⟩

/-- C4 witness: the initial mode is furnished, and the reachable mode
`'schematic'` (one button press from the initial state) produces the
schematic box. -/
theorem renderMode_switching_witness :
    groupContents "schematic" = RoomRepr.schematicBox ∧
    groupContents "furnished" = RoomRepr.furnished true :=
  ⟨((renderMode_switching.2 "schematic"
      (RenderModeReachable.setSchematic RenderModeReachable.init)).1).mpr rfl,
   (renderMode_switching.2 "furnished" RenderModeReachable.init).2
      (by decide)⟩

/-- C5: `savePreviewToLocal` stores the JSON serialization of the preview
list under the key `rdh_quick_` + room type, and the load effect for the
same room type reads it back into a list equal to the one saved, whatever
was in the store or in the previous state. -/
theorem save_load_roundTrip (store : Store) (roomType : String)
    (items prev : List PreviewItem) :
    getItem (savePreviewToLocal store roomType items) (quickKey roomType)
      = some (encodeItems items) ∧
    loadEffect (savePreviewToLocal store roomType items) roomType prev
      = items := by
  refine ⟨getItem_setItem store (quickKey roomType) (encodeItems items), ?_⟩
  rw [loadEffect, savePreviewToLocal, getItem_setItem]
  simp only [decodeItems_encodeItems]

/-- C6: a throwing read/parse in the load effect is silently ignored and
leaves the whole component state (in particular `previewItems`) unchanged;
a throwing write in `savePreviewToLocal` only logs `'persist failed'` and
changes neither the store nor any component state. -/
theorem errors_swallowed (e : Unit) (store : Store) (st : QEState) :
    loadEffectTry (Except.error e) st = st ∧
    savePreviewToLocalTry true store st = (store, st, ["persist failed"]) :=
  ⟨rfl, rfl⟩

/-- C7 counterexample: the claim that no operation substitutes a fallback
result when an action fails is false — when loading the toilet glTF model
throws, the furniture ternary substitutes the procedural fallback, which
is not any loaded-model result. -/
theorem fallback_exists_counterexample :
    furnitureSelect (loadGltf (Except.error ())) =
      FurnitureRender.procedural ∧
    FurnitureRender.procedural ≠
      FurnitureRender.loaded ⟨"/models/toilet.glb"⟩ :=
  ⟨rfl, by decide⟩

/-- C7 amended: the furniture slots substitute the procedural fallback
exactly when the glTF load failed, and render the loaded model otherwise;
the module also keeps the three-entry `commonGeometries` table of reusable
geometries. -/
theorem gltf_fallback_spec :
    (∀ e : Unit, furnitureSelect (loadGltf (Except.error e)) =
        FurnitureRender.procedural) ∧
    (∀ m : GltfModel, furnitureSelect (loadGltf (Except.ok m)) =
        FurnitureRender.loaded m) ∧
    commonGeometries.length = 3 :=
  ⟨fun _ => rfl, fun _ => rfl, rfl⟩

/-- C8: the empty initial cart is well-formed, and every cart operation —
`addToCart`, the decrement button (clamping at 1), the increment button,
`removeFromCart`, and the cart-emptying part of `addAllCartToRoom` —
preserves well-formedness (all quantities at least 1, at most one entry
per catalog key). -/
theorem cart_invariant :
    cartWF [] ∧
    (∀ (item : CatalogItem) (c : List CartEntry),
      cartWF c → cartWF (addToCart item c)) ∧
    (∀ (k : String) (c : List CartEntry),
      cartWF c → cartWF (decQtyButton k c)) ∧
    (∀ (k : String) (c : List CartEntry),
      cartWF c → cartWF (incQtyButton k c)) ∧
    (∀ (k : String) (c : List CartEntry),
      cartWF c → cartWF (removeFromCart k c)) ∧
    (∀ c : List CartEntry, cartWF c → cartWF (addAllCartToRoomCart c)) := by
  refine ⟨cartWF_nil, cartWF_addToCart, ?_, ?_, cartWF_removeFromCart, ?_⟩
  · intro k c h
    exact cartWF_map_update c k (fun q => max 1 (q - 1))
      (fun q _ => le_max_left 1 (q - 1)) h
  · intro k c h
    exact cartWF_map_update c k (fun q => q + 1)
      (fun q hq => by show (1 : ℤ) ≤ q + 1; linarith) h
  · intro c h
    rw [addAllCartToRoomCart]
    split
    · exact h
    · exact cartWF_nil

/-- C8 witness: the invariant applied along a concrete operation sequence
starting from the empty cart. -/
theorem cart_invariant_witness :
    cartWF (incQtyButton "sofa"
      (addToCart ⟨"sofa", "Sofa", "Seating", "s", 299⟩ [])) :=
  cart_invariant.2.2.2.1 "sofa" _
    (cart_invariant.2.1 ⟨"sofa", "Sofa", "Seating", "s", 299⟩ []
      cart_invariant.1)

/-- C9: the mini-game score starts at 0, `addRandomItem` adds 10,
`removeItem` clamps at 0, `resetGame` resets to 0, so every reachable
score is non-negative. -/
theorem score_nonneg (s : ℤ) (h : ScoreReachable s) : 0 ≤ s := by
  induction h with
  | init => exact le_refl 0
  | addRandomItem _ ih =>
    rw [addRandomItemScore]
    linarith
  | removeItem _ _ =>
    exact le_max_left 0 _
  | resetGame _ _ =>
    exact le_refl 0

/-- C9 witness: non-negativity at the concrete reachable score obtained by
adding one random item and then removing it. -/
theorem score_nonneg_witness :
    0 ≤ removeItemScore (addRandomItemScore 0) :=
  score_nonneg _
    (ScoreReachable.removeItem (ScoreReachable.addRandomItem
      ScoreReachable.init))

/-- Range of one `randomPos` draw: integer coordinates in
`[10, 89] × [15, 84]`. -/
lemma randomPos_range (r1 r2 : ℚ) (h1 : 0 ≤ r1) (h1' : r1 < 1)
    (h2 : 0 ≤ r2) (h2' : r2 < 1) :
    (∃ a : ℤ, (randomPos r1 r2).x = (a : ℚ)) ∧
    (∃ b : ℤ, (randomPos r1 r2).y = (b : ℚ)) ∧
    10 ≤ (randomPos r1 r2).x ∧ (randomPos r1 r2).x ≤ 89 ∧
    15 ≤ (randomPos r1 r2).y ∧ (randomPos r1 r2).y ≤ 84 := by
  have hx0 : (0 : ℤ) ≤ ⌊r1 * 80⌋ := Int.floor_nonneg.mpr (by nlinarith)
  have hx1 : ⌊r1 * 80⌋ < 80 := Int.floor_lt.mpr (by push_cast; nlinarith)
  have hy0 : (0 : ℤ) ≤ ⌊r2 * 70⌋ := Int.floor_nonneg.mpr (by nlinarith)
  have hy1 : ⌊r2 * 70⌋ < 70 := Int.floor_lt.mpr (by push_cast; nlinarith)
  have hx0q : (0 : ℚ) ≤ (⌊r1 * 80⌋ : ℤ) := by exact_mod_cast hx0
  have hx1q : ((⌊r1 * 80⌋ : ℤ) : ℚ) ≤ 79 := by
    exact_mod_cast Int.lt_add_one_iff.mp hx1
  have hy0q : (0 : ℚ) ≤ (⌊r2 * 70⌋ : ℤ) := by exact_mod_cast hy0
  have hy1q : ((⌊r2 * 70⌋ : ℤ) : ℚ) ≤ 69 := by
    exact_mod_cast Int.lt_add_one_iff.mp hy1
  refine ⟨⟨⌊r1 * 80⌋ + 10, by rw [randomPos]; push_cast; ring⟩,
          ⟨⌊r2 * 70⌋ + 15, by rw [randomPos]; push_cast; ring⟩,
          ?_, ?_, ?_, ?_⟩ <;>
    · show _ ≤ _
      rw [randomPos]
      dsimp only
      linarith

/-- C10: for any draws of `Math.random()` (each in `[0, 1)`), every
preview item created by `addAllCartToRoom` gets an integer position with
`10 ≤ x ≤ 89` and `15 ≤ y ≤ 84`. -/
theorem addAllCartToRoom_pos_bounds (ids : ℕ → String)
    (rand : ℕ → ℚ × ℚ) (cart : List CartEntry)
    (hrand : ∀ n : ℕ, 0 ≤ (rand n).1 ∧ (rand n).1 < 1 ∧
        0 ≤ (rand n).2 ∧ (rand n).2 < 1) :
    ∀ it ∈ addAllCartCreated ids rand cart,
      (∃ a : ℤ, it.pos.x = (a : ℚ)) ∧ (∃ b : ℤ, it.pos.y = (b : ℚ)) ∧
      10 ≤ it.pos.x ∧ it.pos.x ≤ 89 ∧ 15 ≤ it.pos.y ∧ it.pos.y ≤ 84 := by
  intro it hit
  rw [addAllCartCreated, List.mem_map] at hit
  obtain ⟨ni, _, rfl⟩ := hit
  obtain ⟨ha, hb, hc, hd⟩ := hrand ni.1
  exact randomPos_range (rand ni.1).1 (rand ni.1).2 ha hb hc hd

/-- C10 witness: the bounds at a concrete one-entry cart with both random
draws equal to 0. -/
theorem addAllCartToRoom_pos_bounds_witness :
    10 ≤ (PreviewItem.mk "sofa_0" "Sofa" "Seating" "s"
        (randomPos 0 0) 299).pos.x ∧
    (PreviewItem.mk "sofa_0" "Sofa" "Seating" "s"
        (randomPos 0 0) 299).pos.x ≤ 89 :=
  have hmem : PreviewItem.mk "sofa_0" "Sofa" "Seating" "s"
      (randomPos 0 0) 299 ∈
      addAllCartCreated (fun _ => "sofa_0") (fun _ => (0, 0))
        [⟨"sofa", "Sofa", "Seating", "s", 299, 1⟩] := by
    have h : addAllCartCreated (fun _ => "sofa_0") (fun _ => (0, 0))
        [⟨"sofa", "Sofa", "Seating", "s", 299, 1⟩]
        = [PreviewItem.mk "sofa_0" "Sofa" "Seating" "s"
            (randomPos 0 0) 299] := rfl
    rw [h]
    exact List.mem_singleton_self _
  have hb := addAllCartToRoom_pos_bounds (fun _ => "sofa_0")
    (fun _ => (0, 0)) [⟨"sofa", "Sofa", "Seating", "s", 299, 1⟩]
    (fun _ => by norm_num) _ hmem
  ⟨hb.2.2.1, hb.2.2.2.1⟩

end Frontend
